import Mathlib

/-!
Shallow embedding of the CS230 "Draw It Or Lose It" core
(`src/core/GameService.js`, `src/entities/Game.js`, `src/entities/Team.js`,
`src/entities/Player.js`, `src/entities/Entity.js`).

Modelling conventions:
* JS `Map` collections (insertion-ordered, keyed by id) are Lean lists in
  insertion order; `Map.delete` is a filter on the key, `Map.set` of a fresh
  key is an append.
* JS `Set` (`_uniqueNames`) is a list without duplicates; `Set.add` of an
  absent element appends, `Set.delete` filters.
* Exceptions (`throw new Error(msg)`) become `Except String` with the exact
  message strings of the source.
* A JS argument that may be a non-string value is a `JSVal`; `JSVal.nonstr`
  stands for every non-string value (these are all rejected by the
  `typeof x !== 'string'` guards that inspect such arguments).
* Shared-object mutation through aliases (the same `Player` object being
  referenced from the game map, a team map and `_currentDrawer`) is modelled
  as an id-indexed update applied to every collection; `_currentDrawer` holds
  the snapshot taken at selection time, and the code only ever reads its `id`.
* `Date` timestamps (`_createdAt`, `_lastActivity`, `_updateActivity`) are
  not modelled: no operation of the core reads them back except the unclaimed
  `Player.isActive`, and they carry no game-state information.  The `endedAt`
  timestamp stored in the history log is kept as a `Nat` parameter.
* `uuidv4()` in `createGame` is modelled as a caller-supplied fresh
  identifier parameter (a UUID string is always nonempty).
* `Team._generateColor` picks a random palette color; the color is never read
  by any operation, so the constructor stores the `color` argument as given
  (`none` standing for the randomly generated palette color).
-/

/-- A JavaScript value passed where a string is expected: either an actual
string or some non-string value (`null`, `undefined`, a number, ...). -/
inductive JSVal where
  | str : String → JSVal
  | nonstr : JSVal
deriving Repr, DecidableEq

/-- Truthiness of an optional-string field such as `player.teamId`:
`null`/`undefined` and the empty string are falsy. -/
def jsTruthyOpt : Option String → Bool
  | none => false
  | some s => s ≠ ""

/-- JS `String.prototype.trim()`: strips whitespace from both ends (the
names handled here use ASCII whitespace).  Defined by structural recursion
on the character list so that proofs can evaluate it. -/
def jsTrim (s : String) : String :=
  ⟨((s.data.dropWhile Char.isWhitespace).reverse.dropWhile Char.isWhitespace).reverse⟩

/-- JS `String.prototype.toLowerCase()`, by structural recursion on the
character list. -/
def jsToLower (s : String) : String :=
  ⟨s.data.map Char.toLower⟩

/-- The normalization used for uniqueness bookkeeping:
`name.trim().toLowerCase()`. -/
def normalizeName (s : String) : String := jsToLower (jsTrim s)

/-- `Player` (src/entities/Player.js).  Fields `_id`, `_name` come from
`Entity`; `_lastActivity`/`_createdAt` are timestamps, not modelled. -/
structure Player where
  id : String
  name : String
  teamId : Option String
  score : Int
  isDrawing : Bool
  isReady : Bool
deriving Repr, DecidableEq

/-- `new Player(id, name, teamId)`: the `Entity` constructor throws when id
or name is falsy; fields are initialized as in the source. -/
def Player.new (id name : String) (teamId : Option String) : Except String Player :=
  if id = "" ∨ name = "" then .error "Entity requires both id and name"
  else .ok { id := id, name := name, teamId := teamId,
             score := 0, isDrawing := false, isReady := false }

/-- `player.setReady(b)`. -/
def Player.setReady (p : Player) (b : Bool) : Player := { p with isReady := b }

/-- `player.setDrawing(b)`. -/
def Player.setDrawing (p : Player) (b : Bool) : Player := { p with isDrawing := b }

/-- `player.addScore(points)`: throws when points is negative. -/
def Player.addScore (p : Player) (points : Int) : Except String Player :=
  if points < 0 then .error "Score cannot be negative"
  else .ok { p with score := p.score + points }

/-- `player.resetScore()`. -/
def Player.resetScore (p : Player) : Player := { p with score := 0 }

/-- `Team` (src/entities/Team.js).  `_players` is a `Map` keyed by player id,
kept here as an insertion-ordered list.  `color = none` stands for the
randomly generated palette color of `_generateColor`. -/
structure Team where
  id : String
  name : String
  players : List Player
  score : Int
  color : Option String
  isActive : Bool
deriving Repr, DecidableEq

/-- `new Team(id, name, color)`: the `Entity` constructor throws when id or
name is falsy. -/
def Team.new (id name : String) (color : Option String) : Except String Team :=
  if id = "" ∨ name = "" then .error "Entity requires both id and name"
  else .ok { id := id, name := name, players := [],
             score := 0, color := color, isActive := true }

/-- `team.hasPlayer(playerId)` — `this._players.has(playerId)`. -/
def Team.hasPlayer (t : Team) (playerId : String) : Bool :=
  t.players.any (fun p => p.id = playerId)

/-- `team.addPlayer(player)`: rejects an invalid player object, rejects a
player already present; otherwise inserts the player and sets its team
reference via `player.joinTeam(this._id)` (which throws on a falsy team id;
the shared object is updated in place, so the stored copy carries the new
`teamId`). -/
def Team.addPlayer (t : Team) (p : Player) : Except String Team :=
  if p.id = "" then .error "Valid player object is required"
  else if t.hasPlayer p.id then .error "Player is already in this team"
  else if t.id = "" then .error "Team ID is required"
  else .ok { t with players := t.players ++ [{ p with teamId := some t.id }] }

/-- `team.removePlayer(playerId)`: throws when absent; otherwise calls
`player.leaveTeam()` on the shared object and deletes it from the map (the
object leaves every collection of this team, so only the deletion is
observable here). -/
def Team.removePlayer (t : Team) (playerId : String) : Except String Team :=
  if t.hasPlayer playerId then
    .ok { t with players := t.players.filter (fun p => p.id ≠ playerId) }
  else .error "Player not found in team"

/-- `team.addScore(points)`: throws when points is negative. -/
def Team.addScore (t : Team) (points : Int) : Except String Team :=
  if points < 0 then .error "Score cannot be negative"
  else .ok { t with score := t.score + points }

/-- `team.resetScore()`. -/
def Team.resetScore (t : Team) : Team := { t with score := 0 }

/-- `team.setActive(isActive)`. -/
def Team.setActive (t : Team) (b : Bool) : Team := { t with isActive := b }

/-- `team.isReady()`: false when the team has zero players, otherwise true
iff every player's ready flag is true. -/
def Team.isReady (t : Team) : Bool :=
  if t.players.isEmpty then false
  else t.players.all (fun p => p.isReady)

/-- Game lifecycle states (`this._gameState`). -/
inductive GameState where
  | waiting
  | playing
  | paused
  | finished
deriving Repr, DecidableEq

/-- The `_gameSettings` bag. -/
structure GameSettings where
  allowSpectators : Bool
  enableChat : Bool
  showScores : Bool
deriving Repr, DecidableEq

/-- `Game` (src/entities/Game.js).  `_teams` and `_players` are `Map`s kept
as insertion-ordered lists; `_currentDrawer` holds the player snapshot taken
when the drawer was selected. -/
structure Game where
  id : String
  name : String
  teams : List Team
  players : List Player
  maxTeams : Nat
  maxPlayersPerTeam : Nat
  gameState : GameState
  currentRound : Nat
  maxRounds : Nat
  roundTimeLimit : Nat
  currentWord : Option String
  currentDrawer : Option Player
  gameSettings : GameSettings
deriving Repr, DecidableEq

/-- `new Game(id, name, maxTeams, maxPlayersPerTeam)`: the `Entity`
constructor throws when id or name is falsy; all other fields take the
constructor's initial values. -/
def Game.new (id name : String) (maxTeams maxPlayersPerTeam : Nat) : Except String Game :=
  if id = "" ∨ name = "" then .error "Entity requires both id and name"
  else .ok { id := id, name := name, teams := [], players := [],
             maxTeams := maxTeams, maxPlayersPerTeam := maxPlayersPerTeam,
             gameState := .waiting, currentRound := 0, maxRounds := 10,
             roundTimeLimit := 60, currentWord := none, currentDrawer := none,
             gameSettings := { allowSpectators := true, enableChat := true,
                               showScores := true } }

/-- `this._teams.has(teamId)`. -/
def Game.hasTeam (g : Game) (teamId : String) : Bool :=
  g.teams.any (fun t => t.id = teamId)

/-- `this._teams.get(teamId)`. -/
def Game.getTeam (g : Game) (teamId : String) : Option Team :=
  g.teams.find? (fun t => t.id = teamId)

/-- `this._players.has(playerId)`. -/
def Game.hasPlayer (g : Game) (playerId : String) : Bool :=
  g.players.any (fun p => p.id = playerId)

/-- `this._allTeamsReady()`. -/
def Game.allTeamsReady (g : Game) : Bool :=
  g.teams.all (fun t => t.isReady)

/-- The filter of `_selectNextDrawer`:
`player.teamId && this._teams.has(player.teamId)`. -/
def Game.teamRefResolves (g : Game) (p : Player) : Bool :=
  match p.teamId with
  | none => false
  | some t => t ≠ "" && g.hasTeam t

/-- The `activePlayers` list of `_selectNextDrawer`. -/
def Game.activePlayers (g : Game) : List Player :=
  g.players.filter (fun p => g.teamRefResolves p)

/-- The round-robin index of `_selectNextDrawer`:
`findIndex` of the current drawer's id (−1 when there is no current drawer or
it is no longer among the active players), plus one, modulo the length. -/
def Game.nextDrawerIdx (g : Game) (active : List Player) : Nat :=
  match g.currentDrawer with
  | none => 0
  | some d =>
    match active.findIdx? (fun p => p.id = d.id) with
    | some i => (i + 1) % active.length
    | none => 0

/-- Shared-object mutation through aliases: the same `Player` object is
referenced from `game._players` and from its team's `_players`, so a
mutation of the object is modelled as an id-indexed update applied to every
collection. -/
def Game.updatePlayerEverywhere (g : Game) (playerId : String) (f : Player → Player) : Game :=
  { g with
    players := g.players.map (fun q => if q.id = playerId then f q else q),
    teams := g.teams.map (fun t =>
      { t with players := t.players.map (fun q => if q.id = playerId then f q else q) }) }

/-- `this._selectNextDrawer()`: with no active players the drawer is cleared;
otherwise the round-robin successor is selected and `setDrawing(true)` is
applied to the shared object. -/
def Game.selectNextDrawer (g : Game) : Game :=
  match (g.activePlayers).get? (g.nextDrawerIdx g.activePlayers) with
  | none => { g with currentDrawer := none }
  | some p =>
    { g.updatePlayerEverywhere p.id (fun q => q.setDrawing true) with
      currentDrawer := some (p.setDrawing true) }

/-- `game.startGame()`. -/
def Game.startGame (g : Game) : Except String Game :=
  if g.teams.length < 2 then .error "At least 2 teams required to start game"
  else if ¬ g.allTeamsReady then .error "All teams must be ready to start game"
  else .ok (Game.selectNextDrawer { g with gameState := .playing, currentRound := 1 })

/-- `game.pauseGame()` — a no-op unless playing. -/
def Game.pauseGame (g : Game) : Game :=
  if g.gameState = .playing then { g with gameState := .paused } else g

/-- `game.resumeGame()` — a no-op unless paused. -/
def Game.resumeGame (g : Game) : Game :=
  if g.gameState = .paused then { g with gameState := .playing } else g

/-- `game.endGame()`. -/
def Game.endGame (g : Game) : Game :=
  { g with gameState := .finished, currentDrawer := none, currentWord := none }

/-- `game.nextRound()`: requires the playing state, increments the round
first, then either ends the game (round now above the maximum) or selects
the next drawer. -/
def Game.nextRound (g : Game) : Except String Game :=
  if g.gameState ≠ .playing then
    .error "Game must be in playing state to advance round"
  else if g.maxRounds < g.currentRound + 1 then
    .ok (Game.endGame { g with currentRound := g.currentRound + 1 })
  else
    .ok (Game.selectNextDrawer { g with currentRound := g.currentRound + 1 })

/-- `game.createTeam(teamId, teamName, color)`. -/
def Game.createTeam (g : Game) (teamId teamName : String) (color : Option String) :
    Except String (Game × Team) :=
  if g.hasTeam teamId then .error "Team with this ID already exists"
  else if g.maxTeams ≤ g.teams.length then .error "Maximum number of teams reached"
  else
    match Team.new teamId teamName color with
    | .error e => .error e
    | .ok team => .ok ({ g with teams := g.teams ++ [team] }, team)

/-- `game.removeTeam(teamId)`: throws when absent; otherwise deletes every
player of that team's collection from the game's player map, then deletes
the team. -/
def Game.removeTeam (g : Game) (teamId : String) : Except String Game :=
  match g.getTeam teamId with
  | none => .error "Team not found"
  | some team =>
    .ok { g with
          players := g.players.filter
            (fun p => ¬ (team.players.map (fun q => q.id)).contains p.id),
          teams := g.teams.filter (fun t => t.id ≠ teamId) }

/-- `game.addPlayer(playerId, playerName, teamId)`: rejects a duplicate id,
constructs the player (storing the given team reference, resolved or not),
inserts it into the game's player map, and only when the team id is truthy
and resolves to an existing team also inserts it into that team. -/
def Game.addPlayer (g : Game) (playerId playerName : String) (teamId : Option String) :
    Except String (Game × Player) :=
  if g.hasPlayer playerId then .error "Player with this ID already exists"
  else
    match Player.new playerId playerName teamId with
    | .error e => .error e
    | .ok player =>
      match teamId with
      | some t =>
        if jsTruthyOpt (some t) && g.hasTeam t then
          match g.getTeam t with
          | some team =>
            match team.addPlayer player with
            | .error e => .error e
            | .ok team1 =>
              .ok ({ g with players := g.players ++ [player],
                            teams := g.teams.map (fun u => if u.id = t then team1 else u) },
                   player)
          | none => .ok ({ g with players := g.players ++ [player] }, player)
        else .ok ({ g with players := g.players ++ [player] }, player)
      | none => .ok ({ g with players := g.players ++ [player] }, player)

/-- `game.removePlayer(playerId)`: throws when absent; when the player's
team reference is truthy and resolves, removes it from that team first, then
deletes it from the game's player map. -/
def Game.removePlayer (g : Game) (playerId : String) : Except String Game :=
  match g.players.find? (fun p => p.id = playerId) with
  | none => .error "Player not found"
  | some player =>
    match player.teamId with
    | some t =>
      if jsTruthyOpt (some t) && g.hasTeam t then
        match g.getTeam t with
        | some team =>
          match team.removePlayer playerId with
          | .error e => .error e
          | .ok team1 =>
            .ok { g with teams := g.teams.map (fun u => if u.id = t then team1 else u),
                         players := g.players.filter (fun p => p.id ≠ playerId) }
        | none => .ok { g with players := g.players.filter (fun p => p.id ≠ playerId) }
      else .ok { g with players := g.players.filter (fun p => p.id ≠ playerId) }
    | none => .ok { g with players := g.players.filter (fun p => p.id ≠ playerId) }

/-- `game.setCurrentWord(word)`: rejects a falsy or non-string word, stores
`word.toLowerCase().trim()`. -/
def Game.setCurrentWord (g : Game) (word : JSVal) : Except String Game :=
  match word with
  | .str s =>
    if s = "" then .error "Valid word is required"
    else .ok { g with currentWord := some (jsTrim (jsToLower s)) }
  | .nonstr => .error "Valid word is required"

/-- `player.setReady(b)` invoked on a player object reachable from the game:
the mutation is visible through every alias. -/
def Game.setPlayerReady (g : Game) (playerId : String) (b : Bool) : Game :=
  g.updatePlayerEverywhere playerId (fun p => p.setReady b)

/-- A record of `_gameHistory`: `{game: endedGame.toJSON(), endedAt: new Date()}`.
The snapshot is modelled by the game value itself (`toJSON` is a
structure-preserving serialization); `endedAt` as a `Nat` timestamp. -/
structure HistoryEntry where
  game : Game
  endedAt : Nat
deriving Repr, DecidableEq

/-- The state of the `GameService` singleton (src/core/GameService.js):
`_currentGame`, `_gameHistory`, `_uniqueNames`, `_isInitialized`. -/
structure GameService where
  currentGame : Option Game
  gameHistory : List HistoryEntry
  uniqueNames : List String
  isInitialized : Bool
deriving Repr, DecidableEq

/-- The state right after the `GameService` constructor. -/
def GameService.fresh : GameService :=
  { currentGame := none, gameHistory := [], uniqueNames := [], isInitialized := false }

/-- `gameService.initialize()`. -/
def GameService.initService (s : GameService) : Except String GameService :=
  if s.isInitialized then .error "GameService is already initialized"
  else .ok { s with isInitialized := true }

/-- The `options.maxTeams || 4` idiom: any falsy value (absent, 0) yields
the default. -/
def jsOrDefault (v : Option Nat) (d : Nat) : Nat :=
  match v with
  | none => d
  | some 0 => d
  | some k => k

/-- The `options` argument of `createGame`. -/
structure GameOptions where
  maxTeams : Option Nat
  maxPlayersPerTeam : Option Nat
deriving Repr, DecidableEq

/-- `gameService.createGame(gameName, options)`.  `gameId` is the fresh
identifier produced by `uuidv4()`, supplied as a parameter. -/
def GameService.createGame (s : GameService) (gameName : JSVal) (options : GameOptions)
    (gameId : String) : Except String (GameService × Game) :=
  if ¬ s.isInitialized then .error "GameService must be initialized first"
  else if s.currentGame.isSome then
    .error "A game is already in progress. Only one game instance allowed."
  else
    match gameName with
    | .nonstr => .error "Valid game name is required"
    | .str n =>
      if n = "" then .error "Valid game name is required"
      else if s.uniqueNames.contains (normalizeName n) then
        .error "Game name must be unique"
      else
        match Game.new gameId (jsTrim n) (jsOrDefault options.maxTeams 4)
            (jsOrDefault options.maxPlayersPerTeam 6) with
        | .error e => .error e
        | .ok game =>
          .ok ({ s with currentGame := some game,
                        uniqueNames := s.uniqueNames ++ [normalizeName n] }, game)

/-- `gameService.endCurrentGame()`: never throws; returns the updated state
and the ended game (`none` when there was no active game).  Note the
source deletes `endedGame.name.toLowerCase()` — without a `trim()` — from
the unique-name set. -/
def GameService.endCurrentGame (s : GameService) (now : Nat) : GameService × Option Game :=
  match s.currentGame with
  | none => (s, none)
  | some g =>
    let endedGame := g.endGame
    ({ s with
       gameHistory := s.gameHistory ++ [{ game := endedGame, endedAt := now }],
       uniqueNames := s.uniqueNames.filter (fun m => m ≠ jsToLower endedGame.name),
       currentGame := none }, some endedGame)

/-- `gameService.isNameUnique(name)`: falsy or non-string input is reported
as not unique. -/
def GameService.isNameUnique (s : GameService) (name : JSVal) : Bool :=
  match name with
  | .nonstr => false
  | .str n =>
    if n = "" then false
    else ! s.uniqueNames.contains (normalizeName n)

/-- `gameService.registerUniqueName(name)`. -/
def GameService.registerUniqueName (s : GameService) (name : JSVal) :
    Except String (GameService × Bool) :=
  match name with
  | .nonstr => .error "Valid name is required"
  | .str n =>
    if n = "" then .error "Valid name is required"
    else if s.uniqueNames.contains (normalizeName n) then .error "Name must be unique"
    else .ok ({ s with uniqueNames := s.uniqueNames ++ [normalizeName n] }, true)

/-- `gameService.unregisterUniqueName(name)`: falsy or non-string input is a
no-op. -/
def GameService.unregisterUniqueName (s : GameService) (name : JSVal) : GameService :=
  match name with
  | .nonstr => s
  | .str n =>
    if n = "" then s
    else { s with uniqueNames := s.uniqueNames.filter (fun m => m ≠ normalizeName n) }

/-! Auxiliary definitions used to run the embedded operations on concrete
states in the theorems below. -/

/-- A placeholder game used as the default of `getOkGame`/`getOkPair`; every
use below is on an `Except.ok` value, so the placeholder is never produced. -/
def gameDefault : Game :=
  { id := "x", name := "x", teams := [], players := [], maxTeams := 0,
    maxPlayersPerTeam := 0, gameState := .waiting, currentRound := 0,
    maxRounds := 0, roundTimeLimit := 0, currentWord := none,
    currentDrawer := none, gameSettings := ⟨false, false, false⟩ }

/-- Extract the game of a successful operation. -/
def getOkGame (x : Except String Game) (d : Game) : Game :=
  match x with
  | .ok g => g
  | .error _ => d

/-- Extract the game of a successful operation returning a pair. -/
def getOkPair {α : Type} (x : Except String (Game × α)) (d : Game) : Game :=
  match x with
  | .ok (g, _) => g
  | .error _ => d

/-- `n` successive `nextRound()` calls, stopping at the first failure. -/
def nextRoundN : Nat → Game → Except String Game
  | 0, g => .ok g
  | n + 1, g =>
    match g.nextRound with
    | .ok g1 => nextRoundN n g1
    | .error e => .error e

/-- The public `Team` operations, used to state score invariants over
arbitrary operation sequences.  A thrown exception leaves the team
unchanged (every mutating statement of the source runs after its guards). -/
inductive TeamOp where
  | addScore (points : Int)
  | resetScore
  | setActive (b : Bool)
  | addPlayer (p : Player)
  | removePlayer (playerId : String)
  | setReady (playerId : String) (b : Bool)
deriving Repr, DecidableEq

/-- Apply one `Team` operation; a failing operation is the identity. -/
def Team.applyOp (t : Team) (op : TeamOp) : Team :=
  match op with
  | .addScore p =>
    match t.addScore p with
    | .ok t1 => t1
    | .error _ => t
  | .resetScore => t.resetScore
  | .setActive b => t.setActive b
  | .addPlayer p =>
    match t.addPlayer p with
    | .ok t1 => t1
    | .error _ => t
  | .removePlayer pid =>
    match t.removePlayer pid with
    | .ok t1 => t1
    | .error _ => t
  | .setReady pid b =>
    { t with players := t.players.map (fun q => if q.id = pid then q.setReady b else q) }

/-- Apply a sequence of `Team` operations. -/
def Team.applyOps (t : Team) (ops : List TeamOp) : Team :=
  ops.foldl Team.applyOp t

/-- The `Game` states reachable from the constructor through the public
operations (the drawer-selection and alias-update helpers are internal and
only run inside these operations). -/
inductive Reachable : Game → Prop where
  | new : ∀ id name mt mp g, Game.new id name mt mp = .ok g → Reachable g
  | startGame : ∀ g g1, Reachable g → g.startGame = .ok g1 → Reachable g1
  | nextRound : ∀ g g1, Reachable g → g.nextRound = .ok g1 → Reachable g1
  | pauseGame : ∀ g, Reachable g → Reachable g.pauseGame
  | resumeGame : ∀ g, Reachable g → Reachable g.resumeGame
  | endGame : ∀ g, Reachable g → Reachable g.endGame
  | createTeam : ∀ g tid tname c x, Reachable g → g.createTeam tid tname c = .ok x →
      Reachable x.1
  | removeTeam : ∀ g tid g1, Reachable g → g.removeTeam tid = .ok g1 → Reachable g1
  | addPlayer : ∀ g pid pname tid x, Reachable g → g.addPlayer pid pname tid = .ok x →
      Reachable x.1
  | removePlayer : ∀ g pid g1, Reachable g → g.removePlayer pid = .ok g1 → Reachable g1
  | setCurrentWord : ∀ g w g1, Reachable g → g.setCurrentWord w = .ok g1 → Reachable g1
  | setPlayerReady : ∀ g pid b, Reachable g → Reachable (g.setPlayerReady pid b)

/-- The round/state invariant that actually holds on reachable games. -/
def roundInv (g : Game) : Prop :=
  g.maxRounds = 10 ∧ g.currentRound ≤ g.maxRounds + 1 ∧
    (g.maxRounds < g.currentRound → g.gameState = .finished)

/-! A concrete run of the scenario of the spec: a game with two ready teams
is started and `nextRound()` is called until the game finishes. -/

/-- A freshly constructed demo game. -/
def demoG0 : Game := getOkGame (Game.new "g1" "Game One" 4 6) gameDefault

/-- Demo game after `createTeam("t1", "Red")`. -/
def demoG1 : Game := getOkPair (demoG0.createTeam "t1" "Red" none) gameDefault

/-- Demo game after `createTeam("t2", "Blue")`. -/
def demoG2 : Game := getOkPair (demoG1.createTeam "t2" "Blue" none) gameDefault

/-- Demo game after `addPlayer("p1", "Alice", "t1")`. -/
def demoG3 : Game := getOkPair (demoG2.addPlayer "p1" "Alice" (some "t1")) gameDefault

/-- Demo game after `addPlayer("p2", "Bob", "t2")`. -/
def demoG4 : Game := getOkPair (demoG3.addPlayer "p2" "Bob" (some "t2")) gameDefault

/-- Demo game after both players call `setReady(true)`. -/
def demoG5 : Game := (demoG4.setPlayerReady "p1" true).setPlayerReady "p2" true

/-- Demo game after `startGame()`. -/
def demoG6 : Game := getOkGame demoG5.startGame gameDefault

/-- Demo game after ten more `nextRound()` calls: the round counter stands
at 11 and the state is finished. -/
def demoFinal : Game := getOkGame (nextRoundN 10 demoG6) gameDefault

/-- A `GameService` state right after `getInstance()` + `initialize()`. -/
def svcInit : GameService := { GameService.fresh with isInitialized := true }

/-- A demo game held by `svcActive`. -/
def wGame : Game := getOkGame (Game.new "id1" "Fun Game" 4 6) gameDefault

/-- An initialized `GameService` holding an active game, as produced by
`createGame("Fun Game")`. -/
def svcActive : GameService :=
  { currentGame := some wGame, gameHistory := [], uniqueNames := ["fun game"],
    isInitialized := true }

/-- A placeholder team for `Option.getD`; never produced in the uses below. -/
def teamDefault : Team :=
  { id := "x", name := "x", players := [], score := 0, color := none, isActive := true }

/-- The team `"t1"` of `demoG4` (it holds player `"p1"`). -/
def demoTeam1 : Team := (demoG4.getTeam "t1").getD teamDefault

/-- A team with no players. -/
def teamEmpty : Team :=
  { id := "te", name := "Empty Team", players := [], score := 0, color := none,
    isActive := true }

/-- A team whose two members are both ready. -/
def teamReady : Team :=
  { id := "tr", name := "Ready Team",
    players :=
      [{ id := "q1", name := "Quinn", teamId := some "tr", score := 0,
         isDrawing := false, isReady := true },
       { id := "q2", name := "Rae", teamId := some "tr", score := 0,
         isDrawing := false, isReady := true }],
    score := 0, color := none, isActive := true }

/-- A team with one member that is not ready. -/
def teamNotReady : Team :=
  { id := "tn", name := "Slow Team",
    players :=
      [{ id := "q3", name := "Sam", teamId := some "tn", score := 0,
         isDrawing := false, isReady := false }],
    score := 0, color := none, isActive := true }

/-! ### Helper lemmas -/

/-- Alias updates do not touch the round bookkeeping. -/
theorem updatePlayerEverywhere_frame (g : Game) (pid : String) (f : Player → Player) :
    (g.updatePlayerEverywhere pid f).gameState = g.gameState ∧
    (g.updatePlayerEverywhere pid f).currentRound = g.currentRound ∧
    (g.updatePlayerEverywhere pid f).maxRounds = g.maxRounds :=
  ⟨rfl, rfl, rfl⟩

/-- Drawer selection does not touch the round bookkeeping. -/
theorem selectNextDrawer_frame (g : Game) :
    g.selectNextDrawer.gameState = g.gameState ∧
    g.selectNextDrawer.currentRound = g.currentRound ∧
    g.selectNextDrawer.maxRounds = g.maxRounds := by
  unfold Game.selectNextDrawer
  split
  · exact ⟨rfl, rfl, rfl⟩
  · exact ⟨rfl, rfl, rfl⟩

/-- `createTeam` does not touch the round bookkeeping. -/
theorem createTeam_frame (g : Game) (tid tname : String) (c : Option String)
    (x : Game × Team) (h : g.createTeam tid tname c = .ok x) :
    x.1.gameState = g.gameState ∧ x.1.currentRound = g.currentRound ∧
    x.1.maxRounds = g.maxRounds := by
  unfold Game.createTeam at h
  split at h
  · cases h
  · split at h
    · cases h
    · split at h
      · cases h
      · cases h; exact ⟨rfl, rfl, rfl⟩

/-- `removeTeam` does not touch the round bookkeeping. -/
theorem removeTeam_frame (g : Game) (tid : String) (g1 : Game)
    (h : g.removeTeam tid = .ok g1) :
    g1.gameState = g.gameState ∧ g1.currentRound = g.currentRound ∧
    g1.maxRounds = g.maxRounds := by
  unfold Game.removeTeam at h
  split at h
  · cases h
  · cases h; exact ⟨rfl, rfl, rfl⟩

/-- `addPlayer` does not touch the round bookkeeping. -/
theorem addPlayer_frame (g : Game) (pid pname : String) (tid : Option String)
    (x : Game × Player) (h : g.addPlayer pid pname tid = .ok x) :
    x.1.gameState = g.gameState ∧ x.1.currentRound = g.currentRound ∧
    x.1.maxRounds = g.maxRounds := by
  unfold Game.addPlayer at h
  split at h
  · cases h
  · split at h
    · cases h
    · split at h
      · split at h
        · split at h
          · split at h
            · cases h
            · cases h; exact ⟨rfl, rfl, rfl⟩
          · cases h; exact ⟨rfl, rfl, rfl⟩
        · cases h; exact ⟨rfl, rfl, rfl⟩
      · cases h; exact ⟨rfl, rfl, rfl⟩

/-- `removePlayer` does not touch the round bookkeeping. -/
theorem removePlayer_frame (g : Game) (pid : String) (g1 : Game)
    (h : g.removePlayer pid = .ok g1) :
    g1.gameState = g.gameState ∧ g1.currentRound = g.currentRound ∧
    g1.maxRounds = g.maxRounds := by
  unfold Game.removePlayer at h
  split at h
  · cases h
  · split at h
    · split at h
      · split at h
        · split at h
          · cases h
          · cases h; exact ⟨rfl, rfl, rfl⟩
        · cases h; exact ⟨rfl, rfl, rfl⟩
      · cases h; exact ⟨rfl, rfl, rfl⟩
    · cases h; exact ⟨rfl, rfl, rfl⟩

/-- `setCurrentWord` does not touch the round bookkeeping. -/
theorem setCurrentWord_frame (g : Game) (w : JSVal) (g1 : Game)
    (h : g.setCurrentWord w = .ok g1) :
    g1.gameState = g.gameState ∧ g1.currentRound = g.currentRound ∧
    g1.maxRounds = g.maxRounds := by
  unfold Game.setCurrentWord at h
  split at h
  · split at h
    · cases h
    · cases h; exact ⟨rfl, rfl, rfl⟩
  · cases h

/-- A successful `startGame` puts the game in round 1 of the playing state. -/
theorem startGame_ok (g : Game) (g1 : Game) (h : g.startGame = .ok g1) :
    g1.gameState = .playing ∧ g1.currentRound = 1 ∧ g1.maxRounds = g.maxRounds := by
  unfold Game.startGame at h
  split at h
  · cases h
  · split at h
    · cases h
    · cases h
      obtain ⟨h1, h2, h3⟩ :=
        selectNextDrawer_frame { g with gameState := .playing, currentRound := 1 }
      exact ⟨h1, h2, h3⟩

/-- A successful `nextRound` requires the playing state, increments the
round, finishes past the maximum and otherwise stays playing. -/
theorem nextRound_ok (g : Game) (g1 : Game) (h : g.nextRound = .ok g1) :
    g.gameState = .playing ∧ g1.currentRound = g.currentRound + 1 ∧
    g1.maxRounds = g.maxRounds ∧
    (g.maxRounds < g.currentRound + 1 → g1.gameState = .finished) ∧
    (g.currentRound + 1 ≤ g.maxRounds → g1.gameState = .playing) := by
  unfold Game.nextRound at h
  split at h
  · cases h
  · rename_i hstate
    split at h
    · rename_i hgt
      cases h
      refine ⟨by simpa using hstate, rfl, rfl, fun _ => rfl, fun hle => ?_⟩
      omega
    · rename_i hle
      cases h
      obtain ⟨h1, h2, h3⟩ :=
        selectNextDrawer_frame { g with currentRound := g.currentRound + 1 }
      exact ⟨by simpa using hstate, h2, h3, fun hgt => absurd hgt (by omega),
             fun _ => h1.trans (by simpa using hstate)⟩

/-- The round/state invariant holds in every reachable game state. -/
theorem reachable_roundInv (g : Game) (h : Reachable g) : roundInv g := by
  induction h with
  | new id name mt mp g h =>
    unfold Game.new at h
    split at h
    · cases h
    · cases h
      refine ⟨rfl, ?_, ?_⟩
      · show (0 : Nat) ≤ 10 + 1
        decide
      · show (10 : Nat) < 0 → _ = GameState.finished
        intro hlt
        exact absurd hlt (by decide)
  | startGame g g1 _ h ih =>
    obtain ⟨h1, h2, h3⟩ := startGame_ok g g1 h
    refine ⟨h3.trans ih.1, ?_, ?_⟩
    · omega
    · intro hlt
      rw [h2, h3, ih.1] at hlt
      omega
  | nextRound g g1 _ h ih =>
    obtain ⟨hst, h2, h3, h4, h5⟩ := nextRound_ok g g1 h
    have hle : g.currentRound ≤ g.maxRounds := by
      by_contra hc
      have := ih.2.2 (by omega)
      rw [this] at hst
      cases hst
    refine ⟨h3.trans ih.1, by omega, ?_⟩
    intro hlt
    rw [h2, h3] at hlt
    exact h4 hlt
  | pauseGame g _ ih =>
    unfold Game.pauseGame
    split
    · rename_i hpl
      refine ⟨ih.1, ih.2.1, ?_⟩
      intro hlt
      have := ih.2.2 hlt
      rw [hpl] at this
      cases this
    · exact ih
  | resumeGame g _ ih =>
    unfold Game.resumeGame
    split
    · rename_i hpa
      refine ⟨ih.1, ih.2.1, ?_⟩
      intro hlt
      have := ih.2.2 hlt
      rw [hpa] at this
      cases this
    · exact ih
  | endGame g _ ih =>
    exact ⟨ih.1, ih.2.1, fun _ => rfl⟩
  | createTeam g tid tname c x _ h ih =>
    obtain ⟨h1, h2, h3⟩ := createTeam_frame g tid tname c x h
    rw [roundInv, h1, h2, h3]
    exact ih
  | removeTeam g tid g1 _ h ih =>
    obtain ⟨h1, h2, h3⟩ := removeTeam_frame g tid g1 h
    rw [roundInv, h1, h2, h3]
    exact ih
  | addPlayer g pid pname tid x _ h ih =>
    obtain ⟨h1, h2, h3⟩ := addPlayer_frame g pid pname tid x h
    rw [roundInv, h1, h2, h3]
    exact ih
  | removePlayer g pid g1 _ h ih =>
    obtain ⟨h1, h2, h3⟩ := removePlayer_frame g pid g1 h
    rw [roundInv, h1, h2, h3]
    exact ih
  | setCurrentWord g w g1 _ h ih =>
    obtain ⟨h1, h2, h3⟩ := setCurrentWord_frame g w g1 h
    rw [roundInv, h1, h2, h3]
    exact ih
  | setPlayerReady g pid b _ ih =>
    exact ih

/-- Iterated successful `nextRound` calls stay within reachability. -/
theorem reachable_nextRoundN (k : Nat) :
    ∀ g g1, Reachable g → nextRoundN k g = .ok g1 → Reachable g1 := by
  induction k with
  | zero =>
    intro g g1 h e
    unfold nextRoundN at e
    cases e
    exact h
  | succ n ih =>
    intro g g1 h e
    unfold nextRoundN at e
    split at e
    · rename_i g2 heq
      exact ih g2 g1 (Reachable.nextRound g g2 h heq) e
    · cases e

/-- While the incremented round stays within the maximum, iterated
`nextRound` calls succeed, stay playing, and add one round per call. -/
theorem nextRoundN_run (k : Nat) :
    ∀ g : Game, g.gameState = .playing → g.currentRound + k ≤ g.maxRounds →
    ∃ g1, nextRoundN k g = .ok g1 ∧ g1.gameState = .playing ∧
      g1.currentRound = g.currentRound + k ∧ g1.maxRounds = g.maxRounds := by
  induction k with
  | zero =>
    intro g h _
    exact ⟨g, rfl, h, rfl, rfl⟩
  | succ n ih =>
    intro g h hk
    have hne : ¬ (g.gameState ≠ GameState.playing) := by simp [h]
    have hle : ¬ (g.maxRounds < g.currentRound + 1) := by omega
    have hstep : g.nextRound =
        .ok (Game.selectNextDrawer { g with currentRound := g.currentRound + 1 }) := by
      unfold Game.nextRound
      rw [if_neg hne, if_neg hle]
    obtain ⟨hs1, hs2, hs3⟩ :=
      selectNextDrawer_frame { g with currentRound := g.currentRound + 1 }
    obtain ⟨g1, e1, e2, e3, e4⟩ :=
      ih (Game.selectNextDrawer { g with currentRound := g.currentRound + 1 })
        (hs1.trans h)
        (by rw [hs2, hs3]; show g.currentRound + 1 + n ≤ g.maxRounds; omega)
    refine ⟨g1, ?_, e2, ?_, ?_⟩
    · unfold nextRoundN
      rw [hstep]
      exact e1
    · rw [e3, hs2]
      show g.currentRound + 1 + n = g.currentRound + (n + 1)
      omega
    · rw [e4, hs3]

/-- Deleting a key from the name set really removes it. -/
theorem contains_filter_ne (l : List String) (x : String) :
    (l.filter (fun m => m ≠ x)).contains x = false := by
  induction l with
  | nil => rfl
  | cons a l ih =>
    by_cases h : a = x
    · simp [h, ih]
    · simp [List.filter_cons, h, List.contains_cons, Ne.symm h, ih]

/-- A single `Team` operation never drives a non-negative score negative. -/
theorem applyOp_score_nonneg (t : Team) (op : TeamOp) (h : 0 ≤ t.score) :
    0 ≤ (t.applyOp op).score := by
  cases op with
  | addScore p =>
    simp only [Team.applyOp, Team.addScore]
    split
    · rename_i t1 heq
      split at heq
      · cases heq
      · rename_i hneg
        cases heq
        show (0 : Int) ≤ t.score + p
        omega
    · exact h
  | resetScore =>
    show (0 : Int) ≤ 0
    exact le_refl 0
  | setActive b => exact h
  | addPlayer p =>
    simp only [Team.applyOp]
    split
    · rename_i t1 heq
      unfold Team.addPlayer at heq
      split at heq
      · cases heq
      · split at heq
        · cases heq
        · split at heq
          · cases heq
          · cases heq
            exact h
    · exact h
  | removePlayer pid =>
    simp only [Team.applyOp]
    split
    · rename_i t1 heq
      unfold Team.removePlayer at heq
      split at heq
      · cases heq
        exact h
      · cases heq
    · exact h
  | setReady pid b => exact h

/-! ### Claim theorems -/

/-- Claim C8: `Team.isReady()` returns false when the team has zero players,
and for a team with at least one player it returns true iff every member's
ready flag is true. -/
theorem claim_C8_team_isReady (t : Team) :
    (t.players = [] → t.isReady = false) ∧
    (t.players ≠ [] → (t.isReady = true ↔ ∀ p ∈ t.players, p.isReady = true)) := by
  constructor
  · intro h
    unfold Team.isReady
    rw [h]
    rfl
  · intro h
    have he : t.players.isEmpty = false := by
      cases hp : t.players with
      | nil => exact absurd hp h
      | cons a l => rfl
    unfold Team.isReady
    rw [he]
    simp [List.all_eq_true]

/-- Witness for C8: the empty demo team is not ready, the all-ready demo
team is ready. -/
theorem claim_C8_team_isReady_witness :
    teamEmpty.isReady = false ∧ teamReady.isReady = true :=
  ⟨(claim_C8_team_isReady teamEmpty).1 rfl,
   ((claim_C8_team_isReady teamReady).2 (by decide)).mpr (by decide)⟩

/-- Counterexample to C7 as stated: `resetScore()` is a `Team` operation
that decreases the score (from 5 to 0), so the score is not non-decreasing
across every sequence of `Team` operations. -/
theorem claim_C7_counterexample :
    ∃ t t1, Team.new "t1" "Red" none = .ok t ∧ t.addScore 5 = .ok t1 ∧
      t1.resetScore.score < t1.score := by
  refine ⟨_, _, rfl, rfl, ?_⟩
  decide

/-- Claim C7 (amended): `addScore(points)` fails when points is negative and
otherwise adds points to the cumulative score; `resetScore()` can decrease
the score by setting it back to 0, but the score stays non-negative across
every sequence of `Team` operations. -/
theorem claim_C7_team_score :
    (∀ (t : Team) (p : Int), p < 0 → t.addScore p = .error "Score cannot be negative") ∧
    (∀ (t : Team) (p : Int), 0 ≤ p → t.addScore p = .ok { t with score := t.score + p }) ∧
    (∀ t : Team, t.resetScore.score = 0) ∧
    (∀ (t : Team) (ops : List TeamOp), 0 ≤ t.score → 0 ≤ (t.applyOps ops).score) := by
  refine ⟨?_, ?_, fun _ => rfl, ?_⟩
  · intro t p hp
    unfold Team.addScore
    rw [if_pos hp]
  · intro t p hp
    unfold Team.addScore
    rw [if_neg (by omega)]
  · intro t ops
    induction ops generalizing t with
    | nil => intro h; exact h
    | cons op rest ih =>
      intro h
      show 0 ≤ (Team.applyOps (t.applyOp op) rest).score
      exact ih _ (applyOp_score_nonneg t op h)

/-- Witness for C7 (amended), at the empty demo team. -/
theorem claim_C7_team_score_witness :
    teamEmpty.addScore (-1) = .error "Score cannot be negative" ∧
    teamEmpty.addScore 3 = .ok { teamEmpty with score := teamEmpty.score + 3 } ∧
    0 ≤ (teamEmpty.applyOps [.addScore 5, .resetScore, .addScore 2]).score :=
  ⟨claim_C7_team_score.1 teamEmpty (-1) (by decide),
   claim_C7_team_score.2.1 teamEmpty 3 (by decide),
   claim_C7_team_score.2.2.2 teamEmpty [.addScore 5, .resetScore, .addScore 2] (by decide)⟩

/-- Claim C9: `removeTeam(id)` of an absent id fails; for a present team it
removes exactly the players of that team's collection from the game's player
collection and removes that team, leaving every other team and every other
player in place. -/
theorem claim_C9_removeTeam (g : Game) (tid : String) :
    (g.getTeam tid = none → g.removeTeam tid = .error "Team not found") ∧
    (∀ t, g.getTeam tid = some t →
      ∃ g1, g.removeTeam tid = .ok g1 ∧
        (∀ p, p ∈ g1.players ↔
          p ∈ g.players ∧ p.id ∉ t.players.map (fun q => q.id)) ∧
        (∀ u, u ∈ g1.teams ↔ u ∈ g.teams ∧ u.id ≠ tid)) := by
  constructor
  · intro h
    unfold Game.removeTeam
    rw [h]
  · intro t h
    unfold Game.removeTeam
    rw [h]
    refine ⟨_, rfl, ?_, ?_⟩
    · intro p
      simp [List.mem_filter]
    · intro u
      simp [List.mem_filter]

/-- Witness for C9: removing team `"t1"` of the demo game evicts exactly
player `"p1"` together with the team, and removing an unknown id fails. -/
theorem claim_C9_removeTeam_witness :
    demoG4.removeTeam "zz" = .error "Team not found" ∧
    ∃ g1, demoG4.removeTeam "t1" = .ok g1 ∧
      (∀ p, p ∈ g1.players ↔
        p ∈ demoG4.players ∧ p.id ∉ demoTeam1.players.map (fun q => q.id)) ∧
      (∀ u, u ∈ g1.teams ↔ u ∈ demoG4.teams ∧ u.id ≠ "t1") :=
  ⟨(claim_C9_removeTeam demoG4 "zz").1 rfl,
   (claim_C9_removeTeam demoG4 "t1").2 demoTeam1 rfl⟩

/-- Claim C10: `addPlayer` with a fresh id and a teamId that is not a key of
the team collection succeeds; the player is stored in the game's player
collection with the dangling team reference kept, and no team's player
collection gains the player. -/
theorem claim_C10_addPlayer_dangling (g : Game) (pid pname t : String)
    (hfresh : g.hasPlayer pid = false) (hpid : pid ≠ "") (hpname : pname ≠ "")
    (hnoteam : g.hasTeam t = false) :
    ∃ g1 P, g.addPlayer pid pname (some t) = .ok (g1, P) ∧
      P = { id := pid, name := pname, teamId := some t, score := 0,
            isDrawing := false, isReady := false } ∧
      g1.players = g.players ++ [P] ∧
      g1.teams = g.teams ∧
      ((∀ tm ∈ g.teams, tm.hasPlayer pid = false) →
        ∀ tm ∈ g1.teams, tm.hasPlayer pid = false) := by
  refine ⟨{ g with players := g.players ++
      [{ id := pid, name := pname, teamId := some t, score := 0,
         isDrawing := false, isReady := false }] },
    { id := pid, name := pname, teamId := some t, score := 0,
      isDrawing := false, isReady := false }, ?_, rfl, rfl, rfl, fun h => h⟩
  unfold Game.addPlayer Player.new
  rw [hfresh]
  simp only [Bool.false_eq_true, if_false]
  rw [if_neg (by simp [hpid, hpname])]
  simp only [jsTruthyOpt, hnoteam, Bool.and_false, Bool.false_eq_true, if_false]

/-- Witness for C10: adding player `"p9"` with unknown team `"t9"` to the
demo game keeps the dangling reference and leaves both teams playerless. -/
theorem claim_C10_addPlayer_dangling_witness :
    ∃ g1 P, demoG2.addPlayer "p9" "Zoe" (some "t9") = .ok (g1, P) ∧
      P = { id := "p9", name := "Zoe", teamId := some "t9", score := 0,
            isDrawing := false, isReady := false } ∧
      g1.players = demoG2.players ++ [P] ∧
      g1.teams = demoG2.teams ∧
      ((∀ tm ∈ demoG2.teams, tm.hasPlayer "p9" = false) →
        ∀ tm ∈ g1.teams, tm.hasPlayer "p9" = false) :=
  claim_C10_addPlayer_dangling demoG2 "p9" "Zoe" "t9" rfl (by decide) (by decide) rfl

/-- The drawer produced by `_selectNextDrawer`, characterized by the
round-robin index into the active-player list. -/
theorem selectNextDrawer_drawer (g : Game) :
    ((g.activePlayers).get? (g.nextDrawerIdx g.activePlayers) = none →
      g.selectNextDrawer.currentDrawer = none) ∧
    (∀ p, (g.activePlayers).get? (g.nextDrawerIdx g.activePlayers) = some p →
      g.selectNextDrawer.currentDrawer = some (p.setDrawing true)) := by
  unfold Game.selectNextDrawer
  constructor
  · intro h
    rw [h]
  · intro p h
    rw [h]

/-- Claim C5: `startGame()` fails with fewer than 2 teams, fails when some
team is not ready, and otherwise succeeds with state playing, round 1, and
the drawer selected round-robin (by `nextDrawerIdx`) over the players whose
team reference resolves to an existing team. -/
theorem claim_C5_startGame (g : Game) :
    (g.teams.length < 2 →
      g.startGame = .error "At least 2 teams required to start game") ∧
    (2 ≤ g.teams.length → g.allTeamsReady = false →
      g.startGame = .error "All teams must be ready to start game") ∧
    (2 ≤ g.teams.length → g.allTeamsReady = true →
      ∃ g1, g.startGame = .ok g1 ∧ g1.gameState = .playing ∧ g1.currentRound = 1 ∧
        (g.activePlayers = [] → g1.currentDrawer = none) ∧
        (∀ p, (g.activePlayers).get? (g.nextDrawerIdx g.activePlayers) = some p →
          g1.currentDrawer = some (p.setDrawing true))) := by
  refine ⟨?_, ?_, ?_⟩
  · intro h
    unfold Game.startGame
    rw [if_pos h]
  · intro h2 hready
    unfold Game.startGame
    rw [if_neg (by omega), if_pos (by simp [hready])]
  · intro h2 hready
    unfold Game.startGame
    rw [if_neg (by omega), if_neg (by simp [hready])]
    refine ⟨_, rfl, ?_, ?_, ?_, ?_⟩
    · exact (selectNextDrawer_frame _).1
    · exact (selectNextDrawer_frame _).2.1
    · intro hempty
      refine (selectNextDrawer_drawer _).1 ?_
      show (g.activePlayers).get? (g.nextDrawerIdx g.activePlayers) = none
      rw [hempty]
      rfl
    · intro p hp
      exact (selectNextDrawer_drawer _).2 p hp

/-- Witness for C5: the demo game with no teams fails, the demo game with a
non-ready member fails, and the ready two-team demo game starts in round 1
with Alice (index 0 of the active players) drawing. -/
theorem claim_C5_startGame_witness :
    demoG0.startGame = .error "At least 2 teams required to start game" ∧
    demoG4.startGame = .error "All teams must be ready to start game" ∧
    ∃ g1, demoG5.startGame = .ok g1 ∧ g1.gameState = .playing ∧
      g1.currentRound = 1 ∧
      (demoG5.activePlayers = [] → g1.currentDrawer = none) ∧
      (∀ p, (demoG5.activePlayers).get? (demoG5.nextDrawerIdx demoG5.activePlayers) =
          some p → g1.currentDrawer = some (p.setDrawing true)) :=
  ⟨(claim_C5_startGame demoG0).1 (by decide),
   (claim_C5_startGame demoG4).2.1 (by decide) (by decide),
   (claim_C5_startGame demoG5).2.2 (by decide) (by decide)⟩

/-- Claim C3: `nextRound()` fails outside the playing state; otherwise it
increments the round; past max rounds it finishes the game with the drawer
cleared and no new drawer selected, within the limit it selects the next
drawer by the same round-robin rule as `startGame`; from a fresh started
game with max rounds 10, nine calls reach round 10 still playing and the
tenth finishes the game. -/
theorem claim_C3_nextRound (g : Game) :
    (g.gameState ≠ .playing →
      g.nextRound = .error "Game must be in playing state to advance round") ∧
    (g.gameState = .playing → g.maxRounds < g.currentRound + 1 →
      ∃ g1, g.nextRound = .ok g1 ∧ g1.currentRound = g.currentRound + 1 ∧
        g1.gameState = .finished ∧ g1.currentDrawer = none) ∧
    (g.gameState = .playing → g.currentRound + 1 ≤ g.maxRounds →
      g.nextRound =
        .ok (Game.selectNextDrawer { g with currentRound := g.currentRound + 1 })) ∧
    (g.gameState = .playing → g.currentRound = 1 → g.maxRounds = 10 →
      ∃ g9, nextRoundN 9 g = .ok g9 ∧ g9.currentRound = 10 ∧
        g9.gameState = .playing ∧
        ∃ g10, g9.nextRound = .ok g10 ∧ g10.gameState = .finished ∧
          g10.currentDrawer = none) := by
  refine ⟨?_, ?_, ?_, ?_⟩
  · intro h
    unfold Game.nextRound
    rw [if_pos h]
  · intro h hgt
    unfold Game.nextRound
    rw [if_neg (by simp [h]), if_pos hgt]
    exact ⟨_, rfl, rfl, rfl, rfl⟩
  · intro h hle
    unfold Game.nextRound
    rw [if_neg (by simp [h]), if_neg (by omega)]
  · intro h h1 h10
    obtain ⟨g9, e1, e2, e3, e4⟩ := nextRoundN_run 9 g h (by omega)
    have hr : g9.currentRound = 10 := by rw [e3, h1]
    have hm : g9.maxRounds = 10 := by rw [e4, h10]
    refine ⟨g9, e1, hr, e2, ?_⟩
    unfold Game.nextRound
    rw [if_neg (by simp [e2]), if_pos (by omega)]
    exact ⟨_, rfl, rfl, rfl⟩

/-- Witness for C3: the waiting demo game rejects `nextRound()`, and the
started demo game plays through round 10 and finishes on the tenth call. -/
theorem claim_C3_nextRound_witness :
    demoG0.nextRound = .error "Game must be in playing state to advance round" ∧
    ∃ g9, nextRoundN 9 demoG6 = .ok g9 ∧ g9.currentRound = 10 ∧
      g9.gameState = .playing ∧
      ∃ g10, g9.nextRound = .ok g10 ∧ g10.gameState = .finished ∧
        g10.currentDrawer = none :=
  ⟨(claim_C3_nextRound demoG0).1 (by decide),
   (claim_C3_nextRound demoG6).2.2.2 (by decide) (by decide) (by decide)⟩

/-- Counterexample to C4 as stated: a game state reachable from construction
through the public operations (two teams, two ready players, `startGame`,
then ten `nextRound` calls) in which the round number 11 exceeds max
rounds 10 — `nextRound` increments past the limit before finishing. -/
theorem claim_C4_counterexample :
    ∃ g, Reachable g ∧ g.maxRounds < g.currentRound ∧ g.maxRounds = 10 ∧
      g.currentRound = 11 := by
  have h0 : Reachable demoG0 := Reachable.new "g1" "Game One" 4 6 demoG0 rfl
  have h1 : Reachable demoG1 :=
    Reachable.createTeam demoG0 "t1" "Red" none
      (demoG1, { id := "t1", name := "Red", players := [], score := 0,
                 color := none, isActive := true }) h0 rfl
  have h2 : Reachable demoG2 :=
    Reachable.createTeam demoG1 "t2" "Blue" none
      (demoG2, { id := "t2", name := "Blue", players := [], score := 0,
                 color := none, isActive := true }) h1 rfl
  have h3 : Reachable demoG3 :=
    Reachable.addPlayer demoG2 "p1" "Alice" (some "t1")
      (demoG3, { id := "p1", name := "Alice", teamId := some "t1", score := 0,
                 isDrawing := false, isReady := false }) h2 rfl
  have h4 : Reachable demoG4 :=
    Reachable.addPlayer demoG3 "p2" "Bob" (some "t2")
      (demoG4, { id := "p2", name := "Bob", teamId := some "t2", score := 0,
                 isDrawing := false, isReady := false }) h3 rfl
  have h5 : Reachable demoG5 :=
    Reachable.setPlayerReady _ "p2" true
      (Reachable.setPlayerReady demoG4 "p1" true h4)
  have h6 : Reachable demoG6 := Reachable.startGame demoG5 demoG6 h5 rfl
  have hfin : Reachable demoFinal := reachable_nextRoundN 10 demoG6 demoFinal h6 rfl
  exact ⟨demoFinal, hfin, by decide, by decide, by decide⟩

/-- Claim C4 (amended): in every game state reachable from construction by
the public operations the round number never exceeds max rounds plus one,
and whenever it exceeds max rounds the state is finished (crossing the
limit forces the transition, but the counter itself stops one past the
limit). -/
theorem claim_C4_round_bound (g : Game) (h : Reachable g) :
    g.currentRound ≤ g.maxRounds + 1 ∧
    (g.maxRounds < g.currentRound → g.gameState = .finished) :=
  ⟨(reachable_roundInv g h).2.1, (reachable_roundInv g h).2.2⟩

/-- Witness for C4 (amended), at the freshly constructed demo game. -/
theorem claim_C4_round_bound_witness :
    demoG0.currentRound ≤ demoG0.maxRounds + 1 ∧
    (demoG0.maxRounds < demoG0.currentRound → demoG0.gameState = .finished) :=
  claim_C4_round_bound demoG0 (Reachable.new "g1" "Game One" 4 6 demoG0 rfl)

/-- Counterexample to C1 as stated: in an initialized service with no active
game, the name `" "` is a nonempty string whose normalization is not
reserved, yet `createGame` does not succeed — the trimmed name is empty and
the `Entity` constructor rejects it. -/
theorem claim_C1_counterexample :
    svcInit.isInitialized = true ∧ svcInit.currentGame = none ∧
    (" " : String) ≠ "" ∧
    svcInit.uniqueNames.contains (normalizeName " ") = false ∧
    svcInit.createGame (.str " ") { maxTeams := none, maxPlayersPerTeam := none }
      "uuid-1" = .error "Entity requires both id and name" :=
  ⟨rfl, rfl, by decide, by decide, rfl⟩

/-- Claim C1 (amended): `createGame` fails with the conflict error whenever a
game is active regardless of the name; with no active game it fails with the
validation error on an empty or non-string name, with the duplicate error on
a reserved normalized name, and with the entity error on a whitespace-only
name; otherwise (nonempty trimmed name, fresh uuid) it reserves the
normalized name, stores the new game as the sole active game and returns
it. -/
theorem claim_C1_createGame (s : GameService) (name : JSVal) (opts : GameOptions)
    (gid : String) :
    (s.isInitialized = true → s.currentGame.isSome = true →
      s.createGame name opts gid =
        .error "A game is already in progress. Only one game instance allowed.") ∧
    (s.isInitialized = true → s.currentGame = none →
      (name = .nonstr ∨ name = .str "") →
      s.createGame name opts gid = .error "Valid game name is required") ∧
    (∀ n, s.isInitialized = true → s.currentGame = none → name = .str n → n ≠ "" →
      s.uniqueNames.contains (normalizeName n) = true →
      s.createGame name opts gid = .error "Game name must be unique") ∧
    (∀ n, s.isInitialized = true → s.currentGame = none → name = .str n → n ≠ "" →
      s.uniqueNames.contains (normalizeName n) = false → jsTrim n = "" →
      s.createGame name opts gid = .error "Entity requires both id and name") ∧
    (∀ n, s.isInitialized = true → s.currentGame = none → name = .str n → n ≠ "" →
      s.uniqueNames.contains (normalizeName n) = false → jsTrim n ≠ "" → gid ≠ "" →
      ∃ game, s.createGame name opts gid =
        .ok ({ s with currentGame := some game,
                      uniqueNames := s.uniqueNames ++ [normalizeName n] }, game) ∧
        game.id = gid ∧ game.name = jsTrim n ∧ game.gameState = .waiting ∧
        game.currentRound = 0) := by
  refine ⟨?_, ?_, ?_, ?_, ?_⟩
  · intro hinit hsome
    unfold GameService.createGame
    rw [if_neg (by simp [hinit]), if_pos (by simp [hsome])]
  · intro hinit hnone hbad
    rcases hbad with h | h
    · subst h
      unfold GameService.createGame
      rw [if_neg (by simp [hinit]), if_neg (by simp [hnone])]
    · subst h
      unfold GameService.createGame
      rw [if_neg (by simp [hinit]), if_neg (by simp [hnone])]
      rfl
  · intro n hinit hnone hname hn hdup
    subst hname
    unfold GameService.createGame
    rw [if_neg (by simp [hinit]), if_neg (by simp [hnone])]
    show (if n = "" then _ else _) = _
    rw [if_neg hn, if_pos hdup]
  · intro n hinit hnone hname hn hfree htrim
    subst hname
    have hnew : Game.new gid (jsTrim n) (jsOrDefault opts.maxTeams 4)
        (jsOrDefault opts.maxPlayersPerTeam 6) =
        .error "Entity requires both id and name" := by
      unfold Game.new
      rw [if_pos (Or.inr htrim)]
    unfold GameService.createGame
    rw [if_neg (by simp [hinit]), if_neg (by simp [hnone])]
    show (if n = "" then _ else _) = _
    rw [if_neg hn, if_neg (by rw [hfree]; decide), hnew]
  · intro n hinit hnone hname hn hfree htrim hgid
    subst hname
    have hnew : Game.new gid (jsTrim n) (jsOrDefault opts.maxTeams 4)
        (jsOrDefault opts.maxPlayersPerTeam 6) =
        .ok { id := gid, name := jsTrim n, teams := [], players := [],
              maxTeams := jsOrDefault opts.maxTeams 4,
              maxPlayersPerTeam := jsOrDefault opts.maxPlayersPerTeam 6,
              gameState := .waiting, currentRound := 0, maxRounds := 10,
              roundTimeLimit := 60, currentWord := none, currentDrawer := none,
              gameSettings := { allowSpectators := true, enableChat := true,
                                showScores := true } } := by
      unfold Game.new
      rw [if_neg (by simp [hgid, htrim])]
    refine ⟨{ id := gid, name := jsTrim n, teams := [], players := [],
              maxTeams := jsOrDefault opts.maxTeams 4,
              maxPlayersPerTeam := jsOrDefault opts.maxPlayersPerTeam 6,
              gameState := .waiting, currentRound := 0, maxRounds := 10,
              roundTimeLimit := 60, currentWord := none, currentDrawer := none,
              gameSettings := { allowSpectators := true, enableChat := true,
                                showScores := true } }, ?_, rfl, rfl, rfl, rfl⟩
    unfold GameService.createGame
    rw [if_neg (by simp [hinit]), if_neg (by simp [hnone])]
    show (if n = "" then _ else _) = _
    rw [if_neg hn, if_neg (by rw [hfree]; decide), hnew]

/-- Witness for C1 (amended): the five branches at concrete inputs. -/
theorem claim_C1_createGame_witness :
    svcActive.createGame (.str "Another") { maxTeams := none, maxPlayersPerTeam := none }
      "uuid-2" = .error "A game is already in progress. Only one game instance allowed." ∧
    svcInit.createGame .nonstr { maxTeams := none, maxPlayersPerTeam := none }
      "uuid-1" = .error "Valid game name is required" ∧
    svcActive.createGame (.str (jsTrim "FUN  game")) { maxTeams := none, maxPlayersPerTeam := none }
      "uuid-3" = .error "A game is already in progress. Only one game instance allowed." ∧
    ∃ game, svcInit.createGame (.str " Pictionary Night ")
        { maxTeams := none, maxPlayersPerTeam := none } "uuid-1" =
      .ok ({ svcInit with
             currentGame := some game,
             uniqueNames := svcInit.uniqueNames ++ [normalizeName " Pictionary Night "] },
           game) ∧
      game.id = "uuid-1" ∧ game.name = jsTrim " Pictionary Night " ∧
      game.gameState = .waiting ∧ game.currentRound = 0 :=
  ⟨(claim_C1_createGame svcActive (.str "Another") ⟨none, none⟩ "uuid-2").1 rfl rfl,
   (claim_C1_createGame svcInit .nonstr ⟨none, none⟩ "uuid-1").2.1 rfl rfl (Or.inl rfl),
   (claim_C1_createGame svcActive (.str (jsTrim "FUN  game")) ⟨none, none⟩ "uuid-3").1 rfl rfl,
   (claim_C1_createGame svcInit (.str " Pictionary Night ") ⟨none, none⟩ "uuid-1").2.2.2.2
     " Pictionary Night " rfl rfl rfl (by decide) (by decide) (by decide) (by decide)⟩

/-- Adding a key to the name set makes it present. -/
theorem contains_append_singleton (l : List String) (x : String) :
    (l ++ [x]).contains x = true := by
  induction l with
  | nil => simp
  | cons a l ih => simp [ih]

/-- Claim C2: `endCurrentGame()` with no active game returns none and leaves
the state unchanged; with an active game it finishes that game, appends
exactly one `{game-snapshot, ended-at}` record to the history, removes the
game's normalized name from the unique-name set, clears the active slot
and returns the ended game.  (An active game's stored name is already
trimmed, so the source's trim-free `name.toLowerCase()` delete key is the
normalized name.) -/
theorem claim_C2_endCurrentGame (s : GameService) (now : Nat) :
    (s.currentGame = none → s.endCurrentGame now = (s, none)) ∧
    (∀ g, s.currentGame = some g → jsTrim g.name = g.name →
      ∃ s1, s.endCurrentGame now = (s1, some g.endGame) ∧
        s1.currentGame = none ∧
        s1.gameHistory = s.gameHistory ++ [{ game := g.endGame, endedAt := now }] ∧
        s1.uniqueNames = s.uniqueNames.filter (fun m => m ≠ normalizeName g.name) ∧
        g.endGame.gameState = .finished) := by
  constructor
  · intro h
    unfold GameService.endCurrentGame
    rw [h]
  · intro g h htrim
    have hkey : normalizeName g.name = jsToLower (Game.endGame g).name := by
      unfold normalizeName
      rw [htrim]
      rfl
    refine ⟨{ s with
        gameHistory := s.gameHistory ++ [{ game := g.endGame, endedAt := now }],
        uniqueNames := s.uniqueNames.filter (fun m => m ≠ jsToLower g.endGame.name),
        currentGame := none }, ?_, rfl, rfl, ?_, rfl⟩
    · unfold GameService.endCurrentGame
      rw [h]
    · show s.uniqueNames.filter (fun m => m ≠ jsToLower g.endGame.name) = _
      rw [hkey]

/-- Witness for C2: ending the demo service's active game and ending on the
empty service. -/
theorem claim_C2_endCurrentGame_witness :
    (svcInit.endCurrentGame 5 = (svcInit, none)) ∧
    ∃ s1, svcActive.endCurrentGame 5 = (s1, some wGame.endGame) ∧
      s1.currentGame = none ∧
      s1.gameHistory = svcActive.gameHistory ++ [{ game := wGame.endGame, endedAt := 5 }] ∧
      s1.uniqueNames = svcActive.uniqueNames.filter (fun m => m ≠ normalizeName wGame.name) ∧
      wGame.endGame.gameState = .finished :=
  ⟨(claim_C2_endCurrentGame svcInit 5).1 rfl,
   (claim_C2_endCurrentGame svcActive 5).2 wGame rfl (by decide)⟩

/-- Claim C6: registering a valid name makes `isNameUnique` false for every
case/whitespace variant (any string with the same normalization), and
unregistering makes it true again; in particular a game name is unique
before `createGame`, not unique while the game is active, and unique again
after `endCurrentGame`. -/
theorem claim_C6_name_uniqueness :
    (∀ (s : GameService) (n v : String), n ≠ "" → v ≠ "" →
      normalizeName v = normalizeName n →
      s.uniqueNames.contains (normalizeName n) = false →
      s.registerUniqueName (.str n) =
        .ok ({ s with uniqueNames := s.uniqueNames ++ [normalizeName n] }, true) ∧
      ({ s with uniqueNames := s.uniqueNames ++ [normalizeName n] } :
          GameService).isNameUnique (.str v) = false ∧
      (({ s with uniqueNames := s.uniqueNames ++ [normalizeName n] } :
          GameService).unregisterUniqueName (.str n)).isNameUnique (.str v) = true) ∧
    (∀ (s : GameService) (n gid : String) (opts : GameOptions) (now : Nat),
      s.isInitialized = true → s.currentGame = none → n ≠ "" → jsTrim n ≠ "" →
      gid ≠ "" → s.uniqueNames.contains (normalizeName n) = false →
      s.isNameUnique (.str n) = true ∧
      ∃ s1 game, s.createGame (.str n) opts gid = .ok (s1, game) ∧
        s1.isNameUnique (.str n) = false ∧
        ((s1.endCurrentGame now).1).isNameUnique (.str n) = true) := by
  constructor
  · intro s n v hn hv hnorm hfree
    refine ⟨?_, ?_, ?_⟩
    · unfold GameService.registerUniqueName
      show (if n = "" then _ else _) = _
      rw [if_neg hn, if_neg (by rw [hfree]; decide)]
    · unfold GameService.isNameUnique
      show (if v = "" then _ else _) = _
      rw [if_neg hv, hnorm]
      show (!(s.uniqueNames ++ [normalizeName n]).contains (normalizeName n)) = false
      rw [contains_append_singleton]
      rfl
    · have hx : ({ s with uniqueNames := s.uniqueNames ++ [normalizeName n] } :
          GameService).unregisterUniqueName (.str n) =
          { s with
            uniqueNames :=
              (s.uniqueNames ++ [normalizeName n]).filter
                (fun m => m ≠ normalizeName n) } := by
        unfold GameService.unregisterUniqueName
        show (if n = "" then _ else _) = _
        rw [if_neg hn]
      rw [hx]
      unfold GameService.isNameUnique
      show (if v = "" then _ else _) = _
      rw [if_neg hv, hnorm]
      show (!((s.uniqueNames ++ [normalizeName n]).filter
          (fun m => m ≠ normalizeName n)).contains (normalizeName n)) = true
      rw [contains_filter_ne]
      rfl
  · intro s n gid opts now hinit hnone hn htrim hgid hfree
    constructor
    · unfold GameService.isNameUnique
      show (if n = "" then _ else _) = _
      rw [if_neg hn, hfree]
      rfl
    · have hnew : Game.new gid (jsTrim n) (jsOrDefault opts.maxTeams 4)
          (jsOrDefault opts.maxPlayersPerTeam 6) =
          .ok { id := gid, name := jsTrim n, teams := [], players := [],
                maxTeams := jsOrDefault opts.maxTeams 4,
                maxPlayersPerTeam := jsOrDefault opts.maxPlayersPerTeam 6,
                gameState := .waiting, currentRound := 0, maxRounds := 10,
                roundTimeLimit := 60, currentWord := none, currentDrawer := none,
                gameSettings := { allowSpectators := true, enableChat := true,
                                  showScores := true } } := by
        unfold Game.new
        rw [if_neg (by simp [hgid, htrim])]
      refine ⟨{ s with
          currentGame := some
            { id := gid, name := jsTrim n, teams := [], players := [],
              maxTeams := jsOrDefault opts.maxTeams 4,
              maxPlayersPerTeam := jsOrDefault opts.maxPlayersPerTeam 6,
              gameState := .waiting, currentRound := 0, maxRounds := 10,
              roundTimeLimit := 60, currentWord := none, currentDrawer := none,
              gameSettings := { allowSpectators := true, enableChat := true,
                                showScores := true } },
          uniqueNames := s.uniqueNames ++ [normalizeName n] },
        { id := gid, name := jsTrim n, teams := [], players := [],
          maxTeams := jsOrDefault opts.maxTeams 4,
          maxPlayersPerTeam := jsOrDefault opts.maxPlayersPerTeam 6,
          gameState := .waiting, currentRound := 0, maxRounds := 10,
          roundTimeLimit := 60, currentWord := none, currentDrawer := none,
          gameSettings := { allowSpectators := true, enableChat := true,
                            showScores := true } }, ?_, ?_, ?_⟩
      · unfold GameService.createGame
        rw [if_neg (by simp [hinit]), if_neg (by simp [hnone])]
        show (if n = "" then _ else _) = _
        rw [if_neg hn, if_neg (by rw [hfree]; decide), hnew]
      · unfold GameService.isNameUnique
        show (if n = "" then _ else _) = _
        rw [if_neg hn]
        show (!(s.uniqueNames ++ [normalizeName n]).contains (normalizeName n)) = false
        rw [contains_append_singleton]
        rfl
      · unfold GameService.isNameUnique
        show (if n = "" then _ else _) = _
        rw [if_neg hn]
        show (!((s.uniqueNames ++ [normalizeName n]).filter
            (fun m => m ≠ normalizeName n)).contains (normalizeName n)) = true
        rw [contains_filter_ne]
        rfl

/-- Witness for C6: `"Pictionary Night"` is unique before `createGame`, its
case variant `"  pictionary NIGHT "` is blocked while the game is active,
and the name is free again after `endCurrentGame`; likewise for plain
register/unregister. -/
theorem claim_C6_name_uniqueness_witness :
    (svcInit.registerUniqueName (.str "Pictionary Night") =
      .ok ({ svcInit with
             uniqueNames := svcInit.uniqueNames ++ [normalizeName "Pictionary Night"] },
           true) ∧
     ({ svcInit with
        uniqueNames := svcInit.uniqueNames ++ [normalizeName "Pictionary Night"] } :
         GameService).isNameUnique (.str "  pictionary NIGHT ") = false ∧
     (({ svcInit with
         uniqueNames := svcInit.uniqueNames ++ [normalizeName "Pictionary Night"] } :
         GameService).unregisterUniqueName (.str "Pictionary Night")).isNameUnique
       (.str "  pictionary NIGHT ") = true) ∧
    (svcInit.isNameUnique (.str "Pictionary Night") = true ∧
     ∃ s1 game, svcInit.createGame (.str "Pictionary Night") ⟨none, none⟩ "uuid-9" =
        .ok (s1, game) ∧
       s1.isNameUnique (.str "Pictionary Night") = false ∧
       ((s1.endCurrentGame 7).1).isNameUnique (.str "Pictionary Night") = true) :=
  ⟨claim_C6_name_uniqueness.1 svcInit "Pictionary Night" "  pictionary NIGHT "
     (by decide) (by decide) (by decide) (by decide),
   claim_C6_name_uniqueness.2 svcInit "Pictionary Night" "uuid-9" ⟨none, none⟩ 7
     rfl rfl (by decide) (by decide) (by decide) (by decide)⟩
